import Mathlib

/-!
Verification of the screenlog activity logger.

Shallow embedding of the repository's Python modules:
  * `logger.py`  — log-entry data model, creation/extension (compaction),
    per-day append-only store, best-effort read, retention pruning;
  * `main.py`    — single-tick capture processing and the runner loop's
    day-boundary / commit logic, plus the CLI dispatch;
  * `config.py`  — interval validation;
  * `summarize.py` — digest rendering.

Timestamps are modelled as seconds on the local clock (a `Nat`); the local
calendar date of a timestamp is its day index `t / 86400`.  Python floats
(OCR confidences) are modelled as exact rationals.  A day file is modelled
as a list of records, one record per JSON line.
-/

namespace ScreenLog

/-- Seconds per calendar day. -/
def secondsPerDay : Nat := 86400

/-- Local calendar date of a timestamp (`datetime.date()`), as a day index. -/
def dateOf (t : Nat) : Nat := t / secondsPerDay

/-- Model of `logger.LogEntry` (TypedDict): one compacted, persisted record.
`start_time` / `end_time` are ISO strings in Python; we model the instants
they denote.  `duration_minutes` is a Python `int` (may in principle go
negative on a backwards clock, hence `Int`). -/
structure LogEntry where
  start_time : Nat
  end_time : Nat
  duration_minutes : Int
  snapshot_count : Nat
  active_app : String
  window_title : String
  ocr_text : String
  avg_ocr_confidence : Option ℚ
deriving DecidableEq

/-- Model of `ocr.OCRResult`: extracted text plus optional confidence. -/
structure OCRResult where
  text : String
  confidence : Option ℚ
deriving DecidableEq

/-- Model of `logger.create_log_entry`: fresh entry from a single observation. -/
def create_log_entry (active_app window_title ocr_text : String)
    (ocr_confidence : Option ℚ) (timestamp : Nat) : LogEntry :=
  { start_time := timestamp
    end_time := timestamp
    duration_minutes := 1
    snapshot_count := 1
    active_app := active_app
    window_title := window_title
    ocr_text := ocr_text
    avg_ocr_confidence := ocr_confidence }

/-- Model of `logger.update_log_entry`: extend an open entry with a new observation
whose text matched.  `duration = int((new_timestamp - start).total_seconds() / 60) + 1`
(Python `int()` truncates toward zero, i.e. `Int.div`);
the running average confidence is weighted by the prior snapshot count. -/
def update_log_entry (entry : LogEntry) (new_timestamp : Nat)
    (new_confidence : Option ℚ) : LogEntry :=
  let duration : Int := Int.tdiv ((new_timestamp : Int) - (entry.start_time : Int)) 60 + 1
  let new_count : Nat := entry.snapshot_count + 1
  let new_avg : Option ℚ :=
    match new_confidence, entry.avg_ocr_confidence with
    | some nc, some oa => some ((oa * (entry.snapshot_count : ℚ) + nc) / (new_count : ℚ))
    | some nc, none => some nc
    | none, _ => entry.avg_ocr_confidence
  { entry with
    end_time := new_timestamp
    duration_minutes := duration
    snapshot_count := new_count
    avg_ocr_confidence := new_avg }

/-- Python `not ocr_text or not ocr_text.strip()`: the text is empty or
consists of whitespace only. -/
def isBlankText (s : String) : Bool := s.toList.all Char.isWhitespace

/-- The log directory: one file per day index, each file a list of records
(one JSON line per record). -/
abbrev Store := Nat → List LogEntry

/-- Model of `logger.write_log_entry`: skip (reporting success) when the text is
blank; otherwise append one JSON line to the file named by the CURRENT
date at write time (`get_log_file_path()` is called with no argument, so
the file is `datetime.now().date()`, never the entry's own date). -/
def write_log_entry (now : Nat) (entry : LogEntry) (store : Store) :
    Store × Bool :=
  if isBlankText entry.ocr_text then (store, true)
  else (fun d => if d = dateOf now then store d ++ [entry] else store d, true)

/-- One raw line of a day file, as seen by `read_log_entries`. -/
inductive FileLine
  | blank
  | wellFormed (e : LogEntry)
  | malformed (s : String)
deriving DecidableEq

/-- Whether a line fails `json.loads`. -/
def FileLine.isMalformed : FileLine → Bool
  | malformed _ => true
  | _ => false

/-- The entry a line carries, if well-formed. -/
def FileLine.entry? : FileLine → Option LogEntry
  | wellFormed e => some e
  | _ => none

/-- The `for` loop of `logger.read_log_entries`: blank lines are skipped by
the `if line:` test; a malformed line raises `json.JSONDecodeError`, which
is caught OUTSIDE the loop, so the entries accumulated so far are returned
and the rest of the file is not read. -/
def readLines : List FileLine → List LogEntry
  | [] => []
  | FileLine.blank :: rest => readLines rest
  | FileLine.wellFormed e :: rest => e :: readLines rest
  | FileLine.malformed _ :: _ => []

/-- Model of `logger.read_log_entries`: empty when the file is absent, otherwise the
loop above over the file's lines. -/
def read_log_entries (file : Option (List FileLine)) : List LogEntry :=
  match file with
  | none => []
  | some lines => readLines lines

/-! ### Retention pruning (`logger.cleanup_old_logs`) -/

/-- Gregorian leap-year test. -/
def isLeapYear (y : Nat) : Bool :=
  (y % 4 == 0 && y % 100 != 0) || y % 400 == 0

/-- Length of a month, as validated by `datetime.strptime`. -/
def daysInMonth (y m : Nat) : Nat :=
  if m = 2 then (if isLeapYear y then 29 else 28)
  else if m = 4 ∨ m = 6 ∨ m = 9 ∨ m = 11 then 30
  else 31

/-- Day index of a Gregorian civil date, counted from 0000-03-01
(the standard days-from-civil formula, shifted so March is month 0).
This is the day numbering the model's timestamps use. -/
def civilToDay (y m d : Nat) : Nat :=
  let y' := if m ≤ 2 then y - 1 else y
  let mp := if m ≤ 2 then m + 9 else m - 3
  365 * y' + y' / 4 - y' / 100 + y' / 400 + (153 * mp + 2) / 5 + d - 1

/-- Decimal value of a digit character, if it is one. -/
def digitVal? (c : Char) : Option Nat :=
  if c.isDigit then some (c.toNat - 48) else none

/-- Model of `datetime.strptime(stem, "%Y-%m-%d")`, for the four-digit-year form the
store itself produces: `YYYY-MM-DD` with a valid month and day-of-month.
Returns the civil date, or `none` when the stem is not a date (in Python:
`ValueError`, which `cleanup_old_logs` catches and skips). -/
def parseDateStem (s : String) : Option (Nat × Nat × Nat) :=
  match s.toList with
  | [y3, y2, y1, y0, h1, m1, m0, h2, d1, d0] =>
    if h1 = '-' ∧ h2 = '-' then
      match digitVal? y3, digitVal? y2, digitVal? y1, digitVal? y0,
            digitVal? m1, digitVal? m0, digitVal? d1, digitVal? d0 with
      | some a, some b, some c, some d, some e, some f, some g, some h =>
        let y := 1000 * a + 100 * b + 10 * c + d
        let m := 10 * e + f
        let dd := 10 * g + h
        if 1 ≤ m ∧ m ≤ 12 ∧ 1 ≤ dd ∧ dd ≤ daysInMonth y m then
          some (y, m, dd)
        else none
      | _, _, _, _, _, _, _, _ => none
    else none
  | _ => none

/-- The characters of the `.jsonl` extension. -/
def jsonlExtChars : List Char := ['.', 'j', 's', 'o', 'n', 'l']

/-- Whether a file name matches the glob `*.jsonl`. -/
def matchesJsonlGlob (name : String) : Bool :=
  jsonlExtChars.isSuffixOf name.toList

/-- Model of `Path.stem` of a `*.jsonl` file name: the name without its extension. -/
def stemOf (name : String) : String :=
  String.mk (name.toList.take (name.toList.length - jsonlExtChars.length))

/-- The deletion test of `cleanup_old_logs`: the file matches `*.jsonl`, its
stem parses as a date, and the midnight instant of that date is strictly
before `cutoff_date = now - timedelta(days=days)`. -/
def shouldDeleteLog (now_secs : Nat) (days : Int) (name : String) : Bool :=
  matchesJsonlGlob name &&
    (match parseDateStem (stemOf name) with
     | some (y, m, d) =>
       decide (((secondsPerDay : Int) * (civilToDay y m d : Int))
         < (now_secs : Int) - days * (secondsPerDay : Int))
     | none => false)

/-- Model of `logger.cleanup_old_logs`: walk the directory; delete each `*.jsonl`
file whose date is older than the cutoff, counting deletions; leave every
other file untouched.  Returns the surviving directory and the count. -/
def cleanup_old_logs (now_secs : Nat) (days : Int) :
    List String → List String × Nat
  | [] => ([], 0)
  | name :: rest =>
    let r := cleanup_old_logs now_secs days rest
    if shouldDeleteLog now_secs days name then (r.1, r.2 + 1)
    else (name :: r.1, r.2)

/-! ### Single-tick processing and the runner loop (`main.py`) -/

/-- What the external collaborators yield on one tick: a failed screenshot
(`take_screenshot` returned `None`), an exception raised inside the
window-info / OCR / comparison steps (caught at lines 98-100 of `main.py`),
or a successful observation. -/
inductive TickOutcome
  | captureFailed
  | tickError
  | success (active_app : String) (window_title : String) (ocr : OCRResult)

/-- Model of `main.process_single_capture`: returns `(to_write, current_entry)`.
On capture failure or an in-tick exception the previous entry is returned
unchanged with nothing to write.  On success the fold step runs: matching
text extends the open entry; differing text (or no open entry) creates a
new entry and returns the previous one for writing. -/
def process_single_capture (previous_entry : Option LogEntry)
    (timestamp : Nat) (outcome : TickOutcome) :
    Option LogEntry × Option LogEntry :=
  match outcome with
  | TickOutcome.captureFailed => (none, previous_entry)
  | TickOutcome.tickError => (none, previous_entry)
  | TickOutcome.success app title ocr =>
    match previous_entry with
    | some prev =>
      if prev.ocr_text = ocr.text then
        (none, some (update_log_entry prev timestamp ocr.confidence))
      else
        (some prev, some (create_log_entry app title ocr.text ocr.confidence timestamp))
    | none =>
      (none, some (create_log_entry app title ocr.text ocr.confidence timestamp))

/-- The loop-carried state of `run_loop`: the open (unwritten) entry, the
bound current date, and the log directory. -/
structure LoopState where
  current_entry : Option LogEntry
  current_date : Nat
  store : Store

/-- Lines 133-141 of `run_loop`: when the local date has advanced, write
the open entry (if any) via `write_log_entry` — which files it under the
date current at write time — then clear it and rebind the current date. -/
def day_boundary_step (now : Nat) (st : LoopState) : LoopState :=
  if dateOf now ≠ st.current_date then
    { current_entry := none
      current_date := dateOf now
      store :=
        match st.current_entry with
        | some e => (write_log_entry now e st.store).1
        | none => st.store }
  else st

/-- One full iteration of the `while running` body of `run_loop` (lines
131-159): day-boundary handling, one capture, the commit of `to_write`
when present, and the update of the open entry. -/
def loop_step (now : Nat) (outcome : TickOutcome) (st : LoopState) :
    LoopState :=
  let st1 := day_boundary_step now st
  let pc := process_single_capture st1.current_entry now outcome
  { current_entry := pc.2
    current_date := st1.current_date
    store :=
      match pc.1 with
      | some e => (write_log_entry now e st1.store).1
      | none => st1.store }

/-! ### Configuration validation and CLI dispatch (`config.py`, `main.py`) -/

/-- Model of `config.MIN_INTERVAL`. -/
def MIN_INTERVAL : Int := 10

/-- Model of `config.validate_interval`: raises `ValueError` below the floor,
returns the interval unchanged otherwise. -/
def validate_interval (interval : Int) : Except String Int :=
  if interval < MIN_INTERVAL then
    Except.error "capture interval below the 10 second minimum"
  else
    Except.ok interval

/-- What `main` dispatches to after parsing arguments. -/
inductive StartAction
  | runOnce
  | runLoop (interval : Int) (retention_days : Int)
deriving DecidableEq

/-- Model of `main.main` (lines 174-214): parses `--interval`, `--retention`,
`--once`, installs signal handlers, and dispatches.  No call to
`config.validate_interval` (or any other interval check) appears anywhere
on this path, so startup never raises for any interval value. -/
def main_dispatch (interval retention : Int) (once : Bool) :
    Except String StartAction :=
  if once then Except.ok StartAction.runOnce
  else Except.ok (StartAction.runLoop interval retention)

/-! ### Digest rendering (`summarize.py`)

`summarize.py` treats each entry as a Python dict.  The dict produced by
`logger.py`'s `LogEntry` TypedDict has exactly the eight persisted keys;
a subscript on any other key raises `KeyError`.  Values: Python stores the
two times as ISO strings; the model carries the instants they denote. -/

/-- A value held in a log-entry dict. -/
inductive EntryVal
  | vs (s : String)
  | vi (n : Int)
  | vq (q : ℚ)
  | vnull
deriving DecidableEq

/-- The runtime dict of a `LogEntry`: exactly the eight TypedDict keys. -/
def entryDict (e : LogEntry) : List (String × EntryVal) :=
  [("start_time", EntryVal.vi e.start_time),
   ("end_time", EntryVal.vi e.end_time),
   ("duration_minutes", EntryVal.vi e.duration_minutes),
   ("snapshot_count", EntryVal.vi e.snapshot_count),
   ("active_app", EntryVal.vs e.active_app),
   ("window_title", EntryVal.vs e.window_title),
   ("ocr_text", EntryVal.vs e.ocr_text),
   ("avg_ocr_confidence",
     match e.avg_ocr_confidence with
     | some q => EntryVal.vq q
     | none => EntryVal.vnull)]

/-- Python dict subscript `entry[key]`: `KeyError` when the key is absent. -/
def dictGet (e : LogEntry) (key : String) : Except String EntryVal :=
  match (entryDict e).lookup key with
  | some v => Except.ok v
  | none => Except.error ("KeyError: " ++ key)

/-- Python string slice `s[a:b]` (on character positions). -/
def sliceChars (s : String) (a b : Nat) : String :=
  String.mk ((s.toList.drop a).take (b - a))

/-- Python `v[a:b]` on a dict value: slices a string, raises `TypeError`
on any non-string value. -/
def valSlice (v : EntryVal) (a b : Nat) : Except String String :=
  match v with
  | EntryVal.vs s => Except.ok (sliceChars s a b)
  | _ => Except.error "TypeError: value is not subscriptable"

/-- One step of `calculate_app_usage`'s defaultdict increment, preserving
first-seen insertion order. -/
def bumpApp : List (String × Nat) → String → List (String × Nat)
  | [], app => [(app, 1)]
  | (a, n) :: rest, app =>
    if a = app then (a, n + 1) :: rest else (a, n) :: bumpApp rest app

/-- Insertion into a count-descending list (`sorted(..., reverse=True)`). -/
def insertDescending (p : String × Nat) :
    List (String × Nat) → List (String × Nat)
  | [] => [p]
  | q :: rest =>
    if q.2 < p.2 then p :: q :: rest else q :: insertDescending p rest

/-- Model of `summarize.calculate_app_usage`: per-app entry counts, descending. -/
def calculate_app_usage (entries : List LogEntry) : List (String × Nat) :=
  (entries.foldl (fun acc e => bumpApp acc e.active_app) []).foldr
    insertDescending []

/-- Model of `ts.replace(minute=(ts.minute // block_minutes) * block_minutes,
second=0, microsecond=0)` on a timestamp in seconds. -/
def blockStart (t : Nat) (block_minutes : Nat) : Nat :=
  let hourStart := t - t % 3600
  let minute := t % 3600 / 60
  hourStart + minute / block_minutes * block_minutes * 60

/-- Append an entry to its block in the defaultdict of blocks. -/
def addToBlock (k : Nat) (e : LogEntry) :
    List (Nat × List LogEntry) → List (Nat × List LogEntry)
  | [] => [(k, [e])]
  | (k', es) :: rest =>
    if k' = k then (k', es ++ [e]) :: rest
    else (k', es) :: addToBlock k e rest

/-- Insertion into a key-ascending block list (the final `sorted`). -/
def insertBlockAscending (b : Nat × List LogEntry) :
    List (Nat × List LogEntry) → List (Nat × List LogEntry)
  | [] => [b]
  | q :: rest =>
    if b.1 < q.1 then b :: q :: rest else q :: insertBlockAscending b rest

/-- The `for` loop of `group_entries_by_time_block`: each iteration
subscripts `entry["timestamp"]` and feeds it to `fromisoformat`. -/
def groupGo (block_minutes : Nat) (acc : List (Nat × List LogEntry)) :
    List LogEntry → Except String (List (Nat × List LogEntry))
  | [] => Except.ok acc
  | e :: rest => do
    let v ← dictGet e "timestamp"
    let t ←
      match v with
      | EntryVal.vi t => Except.ok t.toNat
      | _ => Except.error "TypeError: fromisoformat argument"
    groupGo block_minutes (addToBlock (blockStart t block_minutes) e acc) rest

/-- Model of `summarize.group_entries_by_time_block` (lines 33-55). -/
def group_entries_by_time_block (entries : List LogEntry)
    (block_minutes : Nat) : Except String (List (Nat × List LogEntry)) := do
  let blocks ← groupGo block_minutes [] entries
  Except.ok (blocks.foldr insertBlockAscending [])

/-- Two-digit decimal field. -/
def natPad2 (n : Nat) : String := (if n < 10 then "0" else "") ++ toString n

/-- Formatting of `strftime("%H:%M")` of a timestamp in seconds. -/
def hhmm (t : Nat) : String :=
  natPad2 (t % 86400 / 3600) ++ ":" ++ natPad2 (t % 3600 / 60)

/-- One histogram line (lines 94-97); the `%.0f` float percent is modelled
by integer percent (reachable only if every entry carries a `"timestamp"`
key, which the persisted schema does not). -/
def histLine (total : Nat) (p : String × Nat) : String :=
  let pct := p.2 * 100 / total
  let bars := pct / 5
  "- " ++ p.1 ++ ": " ++ toString p.2 ++ "分 (" ++ toString pct ++ "%) "
    ++ String.mk (List.replicate bars '█')
    ++ String.mk (List.replicate (20 - bars) '░')

/-- Model of `max(set(apps), key=apps.count)`: an app of maximal count. -/
def mainAppOf (es : List LogEntry) : String :=
  let apps := es.map (fun e => e.active_app)
  apps.foldl
    (fun best a => if apps.count best < apps.count a then a else best)
    (apps.headD "")

/-- The mutable state of the per-block entry loop (lines 117-148). -/
structure BlockAcc where
  seen : List String
  count : Nat
  outLines : List String

/-- One iteration of the per-block entry loop: stop at the cap, skip short
or duplicate-prefixed texts, then render (subscripting `"timestamp"`). -/
def renderBlockEntry (maxPer : Nat) (acc : BlockAcc) (e : LogEntry) :
    Except String BlockAcc :=
  if maxPer ≤ acc.count then Except.ok acc
  else
    let t := e.ocr_text.trim
    if t = "" ∨ t.length < 50 then Except.ok acc
    else
      let pfx := String.mk (t.toList.take 100)
      if acc.seen.contains pfx then Except.ok acc
      else do
        let tsv ← dictGet e "timestamp"
        let ts ← valSlice tsv 11 16
        let window := String.mk (e.window_title.toList.take 60)
        let body :=
          if 1500 < t.length then String.mk (t.toList.take 1500) ++ "\n...(省略)"
          else t
        Except.ok
          { seen := acc.seen ++ [pfx]
            count := acc.count + 1
            outLines := acc.outLines ++
              ["**" ++ ts ++ "** [" ++ e.active_app ++ "] " ++ window,
               "```", body, "```", ""] }

/-- The per-block entry loop, left to right. -/
def renderBlockList (maxPer : Nat) (acc : BlockAcc) :
    List LogEntry → Except String BlockAcc
  | [] => Except.ok acc
  | e :: rest => do
    let acc' ← renderBlockEntry maxPer acc e
    renderBlockList maxPer acc' rest

/-- One time-block section (lines 105-152). -/
def renderBlock (maxPer : Nat) (blk : Nat × List LogEntry) :
    Except String (List String) := do
  let acc ← renderBlockList maxPer ⟨[], 0, []⟩ blk.2
  let header :=
    ["#### " ++ hhmm blk.1 ++ " - " ++ hhmm (blk.1 + 30 * 60)
       ++ "（" ++ mainAppOf blk.2 ++ "）", ""]
  let emptyNote :=
    if acc.count = 0 then
      ["（このブロックには有意なOCRテキストがありませんでした）", ""]
    else []
  Except.ok (header ++ acc.outLines ++ emptyNote)

/-- All time-block sections in order. -/
def renderBlocks (maxPer : Nat) :
    List (Nat × List LogEntry) → Except String (List String)
  | [] => Except.ok []
  | b :: rest => do
    let l ← renderBlock maxPer b
    let ls ← renderBlocks maxPer rest
    Except.ok (l ++ ls)

/-- The body of `summarize.generate_raw_log` (lines 58-154) on the entries
read back from the store, in the source's evaluation order: empty check,
app usage, time blocks (the first dict subscript of `"timestamp"`), the
header's own `entries[0]["timestamp"][11:16]` slices, histogram, blocks. -/
def generate_raw_log_from (dateStr : String) (entries : List LogEntry)
    (maxPer : Nat) : Except String String :=
  match entries with
  | [] => Except.ok ("## " ++ dateStr ++ " のScreenLog\n\n記録がありません。")
  | e0 :: _ => do
    let app_usage := calculate_app_usage entries
    let time_blocks ← group_entries_by_time_block entries 30
    let v0 ← dictGet e0 "timestamp"
    let s0 ← valSlice v0 11 16
    let vLast ← dictGet (entries.getLastD e0) "timestamp"
    let sLast ← valSlice vLast 11 16
    let total := (app_usage.map (fun p => p.2)).sum
    let headerLines :=
      ["## " ++ dateStr ++ " のScreenLog", "",
       "**記録数**: " ++ toString entries.length ++ "件",
       "**記録時間**: " ++ s0 ++ " 〜 " ++ sLast,
       "", "---", "", "### アプリ使用時間", ""]
    let histLines := (app_usage.take 10).map (histLine total)
    let midLines :=
      ["", "---", "", "### 時間帯別の作業内容（OCRテキスト）", "",
       "以下は各時間帯のスクリーンショットからOCRで抽出したテキストです。",
       "これを読んで、ユーザーが何をしていたか、何を学んだかをサマライズしてください。",
       ""]
    let blockLines ← renderBlocks maxPer time_blocks
    Except.ok (String.intercalate "\n"
      (headerLines ++ histLines ++ midLines ++ blockLines))

/-- Model of `summarize.generate_raw_log`: reads the day's entries from the store
file and renders them. -/
def generate_raw_log (dateStr : String) (file : Option (List FileLine))
    (maxPer : Nat) : Except String String :=
  generate_raw_log_from dateStr (read_log_entries file) maxPer

/-! ## Theorems -/

/-- C2: the compactor contract of a successful tick.  With no open entry,
or an open entry whose stored text differs (byte-wise) from the
observation's text, a new entry is created from the observation
(start = end = the observation's timestamp, one snapshot, one minute, the
observation's confidence as average) and the previous open entry, if any,
is returned as the entry to commit; with byte-identical texts the open
entry is extended (end time set to the observation's timestamp, duration
recomputed, snapshot count incremented by one) and nothing is returned
for commit. -/
theorem C2_fold_contract (prev : Option LogEntry) (ts : Nat)
    (app title : String) (ocr : OCRResult) :
    (prev = none →
      process_single_capture prev ts (TickOutcome.success app title ocr)
        = (none, some (create_log_entry app title ocr.text ocr.confidence ts)))
  ∧ (∀ e, prev = some e → e.ocr_text ≠ ocr.text →
      process_single_capture prev ts (TickOutcome.success app title ocr)
        = (some e, some (create_log_entry app title ocr.text ocr.confidence ts)))
  ∧ (∀ e, prev = some e → e.ocr_text = ocr.text →
      process_single_capture prev ts (TickOutcome.success app title ocr)
        = (none, some (update_log_entry e ts ocr.confidence)))
  ∧ (create_log_entry app title ocr.text ocr.confidence ts).start_time = ts
  ∧ (create_log_entry app title ocr.text ocr.confidence ts).end_time = ts
  ∧ (create_log_entry app title ocr.text ocr.confidence ts).snapshot_count = 1
  ∧ (create_log_entry app title ocr.text ocr.confidence ts).duration_minutes = 1
  ∧ (create_log_entry app title ocr.text ocr.confidence ts).avg_ocr_confidence
      = ocr.confidence
  ∧ (∀ e, (update_log_entry e ts ocr.confidence).end_time = ts
      ∧ (update_log_entry e ts ocr.confidence).snapshot_count
          = e.snapshot_count + 1
      ∧ (update_log_entry e ts ocr.confidence).duration_minutes
          = Int.tdiv ((ts : Int) - (e.start_time : Int)) 60 + 1
      ∧ (update_log_entry e ts ocr.confidence).ocr_text = e.ocr_text
      ∧ (update_log_entry e ts ocr.confidence).start_time = e.start_time) := by
  refine ⟨?_, ?_, ?_, rfl, rfl, rfl, rfl, rfl,
    fun e => ⟨rfl, rfl, rfl, rfl, rfl⟩⟩
  · intro h; subst h; rfl
  · intro e he hne; subst he
    simp [process_single_capture, hne]
  · intro e he heq; subst he
    simp [process_single_capture, heq]

/-- Witness for C2 at a concrete input: an open entry with text `"old"`
meets an observation with text `"new"`, so the old entry is returned for
commit and a fresh entry is opened. -/
theorem C2_fold_contract_witness :
    process_single_capture (some (create_log_entry "A" "W" "old" none 0)) 60
        (TickOutcome.success "B" "V" ⟨"new", none⟩)
      = (some (create_log_entry "A" "W" "old" none 0),
         some (create_log_entry "B" "V" "new" none 60)) :=
  (C2_fold_contract (some (create_log_entry "A" "W" "old" none 0)) 60 "B" "V"
      ⟨"new", none⟩).2.1 (create_log_entry "A" "W" "old" none 0) rfl (by decide)

/-- C5: the running average confidence after an extension is the weighted
mean when both the entry's average and the new confidence are present; a
lone new confidence becomes the average outright; an absent new confidence
leaves the average unchanged.  Folding confidences 0.8 then 0.6 (snapshot
counts 1 then 2) yields average 0.7. -/
theorem C5_confidence_average (e : LogEntry) (ts : Nat) :
    (∀ oa c, e.avg_ocr_confidence = some oa →
      (update_log_entry e ts (some c)).avg_ocr_confidence
        = some ((oa * (e.snapshot_count : ℚ) + c) / ((e.snapshot_count : ℚ) + 1)))
  ∧ (e.avg_ocr_confidence = none → ∀ c,
      (update_log_entry e ts (some c)).avg_ocr_confidence = some c)
  ∧ (update_log_entry e ts none).avg_ocr_confidence = e.avg_ocr_confidence
  ∧ (update_log_entry (create_log_entry "a" "w" "t" (some (4/5)) 0) 60
      (some (3/5))).avg_ocr_confidence = some (7/10) := by
  refine ⟨?_, ?_, rfl, ?_⟩
  · intro oa c h; simp [update_log_entry, h]
  · intro h c; simp [update_log_entry, h]
  · simp [update_log_entry, create_log_entry]
    norm_num

/-- Witness for C5 at a concrete input: extending a count-1 entry whose
average is 0.8 with a confidence of 0.6 gives the weighted mean. -/
theorem C5_confidence_average_witness :
    (update_log_entry (create_log_entry "a" "w" "t" (some (4/5)) 0) 60
        (some (3/5))).avg_ocr_confidence
      = some (((4/5 : ℚ) *
            ((create_log_entry "a" "w" "t" (some (4/5)) 0).snapshot_count : ℚ)
          + 3/5) /
          (((create_log_entry "a" "w" "t" (some (4/5)) 0).snapshot_count : ℚ) + 1)) :=
  (C5_confidence_average (create_log_entry "a" "w" "t" (some (4/5)) 0) 60).1
    (4/5) (3/5) rfl

/-- The data-model invariants of the spec, §3. -/
def EntryInv (e : LogEntry) : Prop :=
  e.start_time ≤ e.end_time
  ∧ 1 ≤ e.snapshot_count
  ∧ e.duration_minutes = (((e.end_time - e.start_time) / 60 : Nat) : Int) + 1
  ∧ 1 ≤ e.duration_minutes

lemma create_log_entry_inv (app title text : String) (c : Option ℚ) (ts : Nat) :
    EntryInv (create_log_entry app title text c ts) := by
  refine ⟨le_refl ts, le_refl 1, ?_, le_refl 1⟩
  show (1 : Int) = ((ts - ts) / 60 : Nat) + 1
  simp

lemma update_log_entry_inv (e : LogEntry) (ts : Nat) (c : Option ℚ)
    (hinv : EntryInv e) (hts : e.start_time ≤ ts) :
    EntryInv (update_log_entry e ts c) := by
  obtain ⟨-, h2, -, -⟩ := hinv
  refine ⟨hts, Nat.le_succ_of_le h2, ?_, ?_⟩
  · show Int.tdiv ((ts : Int) - (e.start_time : Int)) 60 + 1
      = ((ts - e.start_time) / 60 : Nat) + 1
    rw [← Nat.cast_sub hts, Int.ofNat_tdiv]
    norm_num
  · show 1 ≤ Int.tdiv ((ts : Int) - (e.start_time : Int)) 60 + 1
    have h0 : (0 : Int) ≤ Int.tdiv ((ts : Int) - (e.start_time : Int)) 60 := by
      apply Int.tdiv_nonneg _ (by norm_num)
      omega
    omega

/-- Folding a sequence of observations (timestamp, confidence) into an open
entry, one `update_log_entry` per observation. -/
def foldObservations (e : LogEntry) (obs : List (Nat × Option ℚ)) : LogEntry :=
  obs.foldl (fun acc o => update_log_entry acc o.1 o.2) e

lemma foldObservations_inv (obs : List (Nat × Option ℚ)) :
    ∀ e : LogEntry, EntryInv e → (∀ o ∈ obs, e.start_time ≤ o.1) →
      EntryInv (foldObservations e obs)
      ∧ (foldObservations e obs).snapshot_count = e.snapshot_count + obs.length := by
  induction obs with
  | nil => intro e h _; exact ⟨h, rfl⟩
  | cons o rest ih =>
    intro e h hts
    have h1 : EntryInv (update_log_entry e o.1 o.2) :=
      update_log_entry_inv e o.1 o.2 h (hts o (List.mem_cons_self o rest))
    have hstart : (update_log_entry e o.1 o.2).start_time = e.start_time := rfl
    have h2 := ih (update_log_entry e o.1 o.2) h1
      (fun o' ho' => by rw [hstart]; exact hts o' (List.mem_cons_of_mem o ho'))
    refine ⟨h2.1, ?_⟩
    have hc : (update_log_entry e o.1 o.2).snapshot_count
        = e.snapshot_count + 1 := rfl
    have h3 := h2.2
    simp only [foldObservations, List.foldl_cons, List.length_cons] at h3 ⊢
    rw [hc] at h3
    omega

/-- C6: a created entry, and every entry obtained from it by folding in
observations whose timestamps are not earlier than its start time,
satisfies the data-model invariants — start ≤ end, snapshot count ≥ 1
(growing by exactly one per folded observation), and
duration = floor((end − start) in minutes) + 1 ≥ 1. -/
theorem C6_entry_invariants (app title text : String) (c : Option ℚ)
    (ts : Nat) (obs : List (Nat × Option ℚ)) (hts : ∀ o ∈ obs, ts ≤ o.1) :
    EntryInv (create_log_entry app title text c ts)
  ∧ EntryInv (foldObservations (create_log_entry app title text c ts) obs)
  ∧ (foldObservations (create_log_entry app title text c ts) obs).snapshot_count
      = 1 + obs.length := by
  have h := foldObservations_inv obs (create_log_entry app title text c ts)
    (create_log_entry_inv app title text c ts) hts
  exact ⟨create_log_entry_inv app title text c ts, h.1, h.2⟩

/-- Witness for C6 at a concrete input: an entry created at t = 50 and
extended by observations at t = 60 and t = 120. -/
theorem C6_entry_invariants_witness :
    (∀ o ∈ ([(60, none), (120, none)] : List (Nat × Option ℚ)), 50 ≤ o.1)
  ∧ (EntryInv (create_log_entry "A" "W" "text" none 50)
     ∧ EntryInv (foldObservations (create_log_entry "A" "W" "text" none 50)
         [(60, none), (120, none)])
     ∧ (foldObservations (create_log_entry "A" "W" "text" none 50)
         [(60, none), (120, none)]).snapshot_count = 1 + 2) :=
  ⟨by decide,
   by
    have h := C6_entry_invariants "A" "W" "text" none 50
      [(60, none), (120, none)] (by decide)
    simpa using h⟩

/-- C7: appending an entry with blank (empty or whitespace-only) text
writes nothing to any file and reports success; appending an entry with
non-blank text reports success and appends exactly one record to the file
of the current date, leaving every other file unchanged. -/
theorem C7_append_skips_blank_text (now : Nat) (e : LogEntry) (store : Store) :
    (isBlankText e.ocr_text = true →
      write_log_entry now e store = (store, true))
  ∧ (isBlankText e.ocr_text = false →
      (write_log_entry now e store).2 = true
      ∧ (write_log_entry now e store).1 (dateOf now)
          = store (dateOf now) ++ [e]
      ∧ ∀ d, d ≠ dateOf now → (write_log_entry now e store).1 d = store d) := by
  constructor
  · intro h; simp [write_log_entry, h]
  · intro h
    refine ⟨?_, ?_, ?_⟩
    · simp [write_log_entry, h]
    · simp [write_log_entry, h]
    · intro d hd; simp [write_log_entry, h, hd]

/-- Witness for C7 at concrete inputs: a whitespace-only entry is skipped;
a non-blank entry is appended to the current day's file. -/
theorem C7_append_skips_blank_text_witness :
    (isBlankText (create_log_entry "A" "W" " \t " none 0).ocr_text = true
     ∧ write_log_entry 5 (create_log_entry "A" "W" " \t " none 0) (fun _ => [])
        = (fun _ => [], true))
  ∧ (isBlankText (create_log_entry "A" "W" "text" none 0).ocr_text = false
     ∧ (write_log_entry 5 (create_log_entry "A" "W" "text" none 0)
          (fun _ => [])).1 (dateOf 5)
        = (fun _ => ([] : List LogEntry)) (dateOf 5)
            ++ [create_log_entry "A" "W" "text" none 0]) :=
  ⟨⟨by decide,
    (C7_append_skips_blank_text 5 (create_log_entry "A" "W" " \t " none 0)
      (fun _ => [])).1 (by decide)⟩,
   ⟨by decide,
    ((C7_append_skips_blank_text 5 (create_log_entry "A" "W" "text" none 0)
      (fun _ => [])).2 (by decide)).2.1⟩⟩

/-- C3 counterexample: a file holding a well-formed line, a malformed line
and another well-formed line.  The claim says all well-formed entries are
returned ([first, second]); the code returns only [first] — the exception
raised by the malformed line aborts the loop, so a malformed line DOES
prevent well-formed lines after it from being returned. -/
theorem C3_counterexample :
    read_log_entries (some
      [FileLine.wellFormed (create_log_entry "A" "W" "first" none 0),
       FileLine.malformed "not json",
       FileLine.wellFormed (create_log_entry "B" "V" "second" none 60)])
      = [create_log_entry "A" "W" "first" none 0]
  ∧ [create_log_entry "A" "W" "first" none 0]
      ≠ [create_log_entry "A" "W" "first" none 0,
         create_log_entry "B" "V" "second" none 60] := by
  exact ⟨rfl, by decide⟩

/-- C3 amended: reading an absent file returns the empty list; otherwise
the read returns the well-formed entries that occur BEFORE the first
malformed line, in file order (the whole read never fails, but a malformed
line aborts the remainder); when no line is malformed, all well-formed
entries are returned in file order. -/
theorem C3_read_stops_at_first_malformed (lines : List FileLine) :
    read_log_entries none = []
  ∧ read_log_entries (some lines)
      = (lines.takeWhile (fun l => !l.isMalformed)).filterMap FileLine.entry?
  ∧ ((∀ l ∈ lines, l.isMalformed = false) →
      read_log_entries (some lines) = lines.filterMap FileLine.entry?) := by
  have key : ∀ ls : List FileLine,
      readLines ls
        = (ls.takeWhile (fun l => !l.isMalformed)).filterMap FileLine.entry? := by
    intro ls
    induction ls with
    | nil => rfl
    | cons l rest ih =>
      cases l with
      | blank => simpa [readLines, List.takeWhile, FileLine.isMalformed,
          FileLine.entry?] using ih
      | wellFormed e => simpa [readLines, List.takeWhile, FileLine.isMalformed,
          FileLine.entry?] using ih
      | malformed s => simp [readLines, List.takeWhile, FileLine.isMalformed]
  refine ⟨rfl, key lines, fun hall => ?_⟩
  have : lines.takeWhile (fun l => !l.isMalformed) = lines :=
    List.takeWhile_eq_self_iff.mpr (by simpa using hall)
  rw [show read_log_entries (some lines) = readLines lines from rfl, key lines, this]

/-- Witness for C3 (amended) at a concrete input: a file with no malformed
line returns all well-formed entries. -/
theorem C3_read_stops_at_first_malformed_witness :
    (∀ l ∈ [FileLine.blank,
            FileLine.wellFormed (create_log_entry "A" "W" "first" none 0)],
        l.isMalformed = false)
  ∧ read_log_entries (some
      [FileLine.blank,
       FileLine.wellFormed (create_log_entry "A" "W" "first" none 0)])
      = [FileLine.blank,
         FileLine.wellFormed
           (create_log_entry "A" "W" "first" none 0)].filterMap FileLine.entry? :=
  ⟨by decide,
   (C3_read_stops_at_first_malformed
     [FileLine.blank,
      FileLine.wellFormed (create_log_entry "A" "W" "first" none 0)]).2.2
     (by decide)⟩

lemma cleanup_eq_filter (now_secs : Nat) (days : Int) (files : List String) :
    cleanup_old_logs now_secs days files
      = (files.filter (fun n => !shouldDeleteLog now_secs days n),
         (files.filter (fun n => shouldDeleteLog now_secs days n)).length) := by
  induction files with
  | nil => rfl
  | cons name rest ih =>
    by_cases h : shouldDeleteLog now_secs days name
    · simp [cleanup_old_logs, ih, List.filter_cons, h]
    · simp [cleanup_old_logs, ih, List.filter_cons, h]

/-- C8: pruning deletes exactly the `*.jsonl` files whose stem parses as a
date whose midnight lies strictly before `now − retention_days`, leaves
every other file (including names that do not parse as a date) untouched,
and returns the number of deletions.  Concretely, with a 30-day retention
run at noon of 2026-10-12 against files dated today, today−29 and
today−31 plus a non-date file, only the today−31 file is deleted. -/
theorem C8_prune_by_dated_name (now_secs : Nat) (days : Int)
    (files : List String) :
    cleanup_old_logs now_secs days files
      = (files.filter (fun n => !shouldDeleteLog now_secs days n),
         (files.filter (fun n => shouldDeleteLog now_secs days n)).length)
  ∧ cleanup_old_logs (secondsPerDay * civilToDay 2026 10 12 + 43200) 30
      ["2026-10-12.jsonl", "2026-09-13.jsonl", "notes.txt", "2026-09-11.jsonl"]
      = (["2026-10-12.jsonl", "2026-09-13.jsonl", "notes.txt"], 1) :=
  ⟨cleanup_eq_filter now_secs days files, by decide⟩

/-- C9: a tick on which the screen capture fails, or on which any error is
raised inside the capture/inspection/extraction steps, returns the open
entry unchanged with nothing to commit; on such a tick (with the calendar
date unchanged) the whole loop iteration leaves the runner state — open
entry, bound date and store — exactly as it was. -/
theorem C9_failed_tick_is_noop (prev : Option LogEntry) (ts : Nat)
    (st : LoopState) :
    process_single_capture prev ts TickOutcome.captureFailed = (none, prev)
  ∧ process_single_capture prev ts TickOutcome.tickError = (none, prev)
  ∧ (dateOf ts = st.current_date →
      loop_step ts TickOutcome.captureFailed st = st
      ∧ loop_step ts TickOutcome.tickError st = st) := by
  refine ⟨rfl, rfl, fun h => ⟨?_, ?_⟩⟩
  · simp [loop_step, day_boundary_step, process_single_capture, h]
  · simp [loop_step, day_boundary_step, process_single_capture, h]

/-- Witness for C9 at a concrete input: a failed capture at t = 100 with an
open entry and the date still bound to day 0 changes nothing. -/
theorem C9_failed_tick_is_noop_witness :
    dateOf 100 = 0
  ∧ (loop_step 100 TickOutcome.captureFailed
        ⟨some (create_log_entry "A" "W" "t" none 0), 0, fun _ => []⟩
      = ⟨some (create_log_entry "A" "W" "t" none 0), 0, fun _ => []⟩
     ∧ loop_step 100 TickOutcome.tickError
        ⟨some (create_log_entry "A" "W" "t" none 0), 0, fun _ => []⟩
      = ⟨some (create_log_entry "A" "W" "t" none 0), 0, fun _ => []⟩) :=
  ⟨rfl,
   (C9_failed_tick_is_noop (some (create_log_entry "A" "W" "t" none 0)) 100
     ⟨some (create_log_entry "A" "W" "t" none 0), 0, fun _ => []⟩).2.2 rfl⟩

/-- C1: evaluation of the day-boundary step at the spec's own scenario — an
entry opened at 23:58 of day 20000 with text "continuing", and a tick at
00:02 of day 20001.  `run_loop` does commit the open entry and clear it,
but the commit goes through `write_log_entry`, which names the file by the
date current at write time: the day-20000 entry lands in day 20001's file,
and day 20000's file stays empty — contradicting the claim (and the
"wrote final entry to previous day's log" message the code prints). -/
theorem C1_day_boundary_commits_to_new_day_file :
    (day_boundary_step (20001 * secondsPerDay + 2 * 60)
        { current_entry := some (create_log_entry "A" "W" "continuing" none
            (20000 * secondsPerDay + 23 * 3600 + 58 * 60))
          current_date := 20000
          store := fun _ => [] }).store 20001
      = [create_log_entry "A" "W" "continuing" none
          (20000 * secondsPerDay + 23 * 3600 + 58 * 60)]
  ∧ (day_boundary_step (20001 * secondsPerDay + 2 * 60)
        { current_entry := some (create_log_entry "A" "W" "continuing" none
            (20000 * secondsPerDay + 23 * 3600 + 58 * 60))
          current_date := 20000
          store := fun _ => [] }).store 20000
      = []
  ∧ (day_boundary_step (20001 * secondsPerDay + 2 * 60)
        { current_entry := some (create_log_entry "A" "W" "continuing" none
            (20000 * secondsPerDay + 23 * 3600 + 58 * 60))
          current_date := 20000
          store := fun _ => [] }).current_entry
      = none
  ∧ (day_boundary_step (20001 * secondsPerDay + 2 * 60)
        { current_entry := some (create_log_entry "A" "W" "continuing" none
            (20000 * secondsPerDay + 23 * 3600 + 58 * 60))
          current_date := 20000
          store := fun _ => [] }).current_date
      = 20001 := by
  refine ⟨?_, rfl, rfl, rfl⟩
  decide

/-- C4: rendering the digest for a day whose store file holds one
well-formed entry with exactly the persisted fields raises
`KeyError: timestamp` — `group_entries_by_time_block` subscripts
`entry["timestamp"]`, a key the persisted `LogEntry` schema does not have —
while the empty day renders the "no records" message.  The claim's "never
raises" is false for every non-empty entry list of the persisted schema. -/
theorem C4_digest_raises_keyerror_on_persisted_entries :
    generate_raw_log "2026-10-12"
      (some [FileLine.wellFormed
        (create_log_entry "Safari" "Docs" "some extracted text" none 1000)]) 2
      = Except.error "KeyError: timestamp"
  ∧ generate_raw_log "2026-10-12" none 2
      = Except.ok "## 2026-10-12 のScreenLog\n\n記録がありません。" :=
  ⟨rfl, rfl⟩

/-- C10 counterexample: with interval 5 — below the 10-second floor —
`validate_interval` would raise, but `main` never calls it: startup
dispatches straight to the capture loop with interval 5 and no error, so
"the process does not start" is false as stated. -/
theorem C10_counterexample :
    validate_interval 5
      = Except.error "capture interval below the 10 second minimum"
  ∧ main_dispatch 5 30 false = Except.ok (StartAction.runLoop 5 30) :=
  ⟨rfl, rfl⟩

/-- C10 amended: `validate_interval` raises a validation error for every
interval below the 10-second floor and returns the interval unchanged at
or above it; but `main` never invokes it, so startup succeeds (dispatching
to the one-shot or the loop) for EVERY interval, including sub-floor
ones. -/
theorem C10_validation_defined_but_never_invoked (i r : Int) (once : Bool) :
    (i < MIN_INTERVAL →
      validate_interval i
        = Except.error "capture interval below the 10 second minimum")
  ∧ (MIN_INTERVAL ≤ i → validate_interval i = Except.ok i)
  ∧ main_dispatch i r once
      = Except.ok
          (if once then StartAction.runOnce else StartAction.runLoop i r) := by
  refine ⟨fun h => ?_, fun h => ?_, ?_⟩
  · simp [validate_interval, h]
  · simp [validate_interval, not_lt.mpr h]
  · cases once <;> rfl

/-- Witness for C10 (amended) at concrete inputs: interval 5 is rejected by
the validator, interval 300 is accepted unchanged. -/
theorem C10_validation_defined_but_never_invoked_witness :
    ((5 : Int) < MIN_INTERVAL
     ∧ validate_interval 5
        = Except.error "capture interval below the 10 second minimum")
  ∧ (MIN_INTERVAL ≤ (300 : Int) ∧ validate_interval 300 = Except.ok 300) :=
  ⟨⟨by decide, (C10_validation_defined_but_never_invoked 5 30 false).1 (by decide)⟩,
   ⟨by decide, (C10_validation_defined_but_never_invoked 300 30 false).2.1 (by decide)⟩⟩

end ScreenLog
